import Mathlib

/-!
Verification development for the CodeLens backend (`backend/app.py`).

The core analysis functions of the source are shallowly embedded as Lean
definitions over `String` / `List Char`:

* Python `str` primitives (`count`, `split`, `splitlines`, `strip`, `in`,
  `startswith`, `lower`, ...) are re-implemented as executable functions whose
  behaviour matches CPython on the inputs the source can produce (the source
  only ever splits on `'\n'` and only uses ASCII keyword patterns).
* The specific regular expressions appearing in the source are each embedded
  as a dedicated scanner implementing Python's leftmost-match /
  first-alternative semantics for exactly that pattern.
* Calls into external parsing libraries that are not part of this repository
  (`ast.parse`, `pycparser`) are represented by explicit `Option` summary
  arguments: `some s` models a successful parse with the node counts
  collected in `s`, `none` models the `SyntaxError`/parse failure branch of
  the corresponding `try ... except`.  `json.loads` is modelled by an
  executable JSON validity checker.
* Python `int` values that can become negative are modelled as `Int`;
  genuine counts are `Nat` cast into the `Int`-valued metric record.
* `math.log` over floats is modelled over `ℝ` with `Real.log`, with the
  `ValueError` branch (argument `≤ 0`) made explicit, mirroring the
  `try ... except` in `calculate_maintainability_index`.
-/

set_option maxRecDepth 8000

/-! ## Character and string primitives modelling Python's `str` -/

/-- Whitespace characters of Python's `str.strip` / regex `\s` (ASCII part). -/
def pyIsWs (c : Char) : Bool :=
  c == ' ' || c == '\t' || c == '\n' || c == '\r' || c == '\x0b' || c == '\x0c'

/-- Regex `\w`: `[A-Za-z0-9_]`. -/
def isWordChar (c : Char) : Bool :=
  c.isAlphanum || c == '_'

/-- ASCII lower-casing of a character, as in Python `str.lower` for ASCII. -/
def asciiLower (c : Char) : Char :=
  if 'A' ≤ c ∧ c ≤ 'Z' then Char.ofNat (c.toNat + 32) else c

/-- ASCII upper-casing of a character. -/
def asciiUpper (c : Char) : Char :=
  if 'a' ≤ c ∧ c ≤ 'z' then Char.ofNat (c.toNat - 32) else c

/-- Python `s.lower()` (ASCII). -/
def pyLower (s : String) : String :=
  String.mk (s.toList.map asciiLower)

/-- Python `s.capitalize()` (ASCII): first character upper-cased, rest lowered. -/
def pyCapitalize (s : String) : String :=
  match s.toList with
  | [] => ""
  | c :: rest => String.mk (asciiUpper c :: rest.map asciiLower)

/-- Trim Python-whitespace from both ends of a character list. -/
def trimChars (l : List Char) : List Char :=
  ((l.dropWhile pyIsWs).reverse.dropWhile pyIsWs).reverse

/-- Python `s.strip()`. -/
def pyStrip (s : String) : String :=
  String.mk (trimChars s.toList)

/-- Number of leading whitespace characters: `len(s) - len(s.lstrip())`. -/
def leadingWsCount (s : String) : Nat :=
  (s.toList.takeWhile pyIsWs).length

/-- Python `pre in s`? — substring containment, on character lists. -/
def listHasSub (pat : List Char) : List Char → Bool
  | [] => pat.isEmpty
  | c :: rest => pat.isPrefixOf (c :: rest) || listHasSub pat rest

/-- Python `pat in s` (substring test). -/
def strContains (s pat : String) : Bool :=
  listHasSub pat.toList s.toList

/-- Python `s.startswith(pre)`. -/
def pyStartsWith (s pre : String) : Bool :=
  pre.toList.isPrefixOf s.toList

/-- Python `s.endswith(suf)`. -/
def pyEndsWith (s suf : String) : Bool :=
  suf.toList.reverse.isPrefixOf s.toList.reverse

/-- Non-overlapping occurrence counting, fuelled (fuel ≥ list length suffices
since the pattern is non-empty in every use site). -/
def countSubGo (pat : List Char) : Nat → List Char → Nat
  | 0, _ => 0
  | _, [] => 0
  | fuel + 1, c :: rest =>
    if pat.isPrefixOf (c :: rest) then
      1 + countSubGo pat fuel ((c :: rest).drop pat.length)
    else
      countSubGo pat fuel rest

/-- Python `s.count(pat)` (non-overlapping, left to right). -/
def pyCount (s pat : String) : Nat :=
  match pat.toList with
  | [] => s.toList.length + 1
  | p :: ps => countSubGo (p :: ps) (s.toList.length + 1) s.toList

/-- Split a character list at every occurrence of `sep` (Python
`s.split(sep)` for a single-character separator: always at least one piece). -/
def splitCharList (sep : Char) : List Char → List (List Char)
  | [] => [[]]
  | c :: rest =>
    match splitCharList sep rest with
    | [] => [[]]
    | piece :: pieces =>
      if c = sep then [] :: piece :: pieces else (c :: piece) :: pieces

/-- Python `s.split('\n')`. -/
def pySplitOnNl (s : String) : List String :=
  (splitCharList '\n' s.toList).map String.mk

/-- Python `s.split(sep)` for the single-character separators used by the
source (`','`, `':'`, `'='`, `'/'`). -/
def pySplitOnChar (sep : Char) (s : String) : List String :=
  (splitCharList sep s.toList).map String.mk

/-- Python `s.splitlines()` restricted to `'\n'` line endings (the only line
terminator occurring in the analysed flows): no trailing empty line for a
trailing newline, and `[]` for the empty string. -/
def splitlinesChars : List Char → List (List Char)
  | [] => []
  | c :: rest =>
    if c = '\n' then [] :: splitlinesChars rest
    else
      match splitlinesChars rest with
      | [] => [[c]]
      | l :: ls => (c :: l) :: ls

/-- Python `s.splitlines()` (see `splitlinesChars`). -/
def pySplitlines (s : String) : List String :=
  (splitlinesChars s.toList).map String.mk

/-- `sep.join(xs)`. -/
def joinSep (sep : String) : List String → String
  | [] => ""
  | [x] => x
  | x :: y :: rest => x ++ sep ++ joinSep sep (y :: rest)

/-- Python `s.split()[0]` for a non-empty stripped string: first
whitespace-delimited word. -/
def firstWord (s : String) : String :=
  String.mk ((s.toList.dropWhile pyIsWs).takeWhile (fun c => !pyIsWs c))

/-- Index of the last occurrence of `c` (Python `s.rfind(c)` on success). -/
def lastIndexOf (c : Char) (l : List Char) : Option Nat :=
  ((l.enum.filter (fun p => p.2 == c)).getLast?).map Prod.fst

/-- The final path component, then the extension rule of
`pathlib.PurePath.suffix`: `name[i:]` for `i = name.rfind('.')` when
`0 < i < len(name) - 1`, else `''`. -/
def pathSuffix (filename : String) : String :=
  let name := (splitCharList '/' filename.toList).getLastD []
  match lastIndexOf '.' name with
  | none => ""
  | some i => if 0 < i ∧ i < name.length - 1 then String.mk (name.drop i) else ""

/-! ## A JSON validity checker modelling `json.loads`

`json` is a standard-library collaborator, not code of this repository; only
*whether* `json.loads(content)` raises is observable in `detect_file_type`.
The checker below implements the grammar accepted by CPython's `json.loads`
with its default options (including `NaN` / `Infinity`), fuelled for
termination. -/

def jsonSkipWs (l : List Char) : List Char :=
  l.dropWhile (fun c => c == ' ' || c == '\t' || c == '\n' || c == '\r')

def isHexDigit (c : Char) : Bool :=
  c.isDigit || ('a' ≤ c ∧ c ≤ 'f') || ('A' ≤ c ∧ c ≤ 'F')

/-- Consume the body of a JSON string after the opening quote. -/
def jsonStrBody : Nat → List Char → Option (List Char)
  | 0, _ => none
  | _, [] => none
  | fuel + 1, c :: rest =>
    if c = '"' then some rest
    else if c = '\\' then
      match rest with
      | [] => none
      | e :: r =>
        if e = '"' || e = '\\' || e = '/' || e = 'b' || e = 'f' ||
            e = 'n' || e = 'r' || e = 't' then
          jsonStrBody fuel r
        else if e = 'u' then
          if (r.take 4).length = 4 ∧ (r.take 4).all isHexDigit then
            jsonStrBody fuel (r.drop 4)
          else none
        else none
    else if c.toNat < 32 then none
    else jsonStrBody fuel rest

/-- Fraction/exponent tail of a JSON number. -/
def jsonNumberFrac (r : List Char) : Option (List Char) :=
  let r1 := match r with
    | '.' :: d :: rest =>
      if d.isDigit then (rest.dropWhile Char.isDigit) else '.' :: d :: rest
    | rest => rest
  match r1 with
  | e :: rest =>
    if e = 'e' || e = 'E' then
      let rest1 := match rest with
        | s :: rr => if s = '+' || s = '-' then rr else rest
        | [] => rest
      match rest1 with
      | d :: rr => if d.isDigit then some (rr.dropWhile Char.isDigit) else none
      | [] => none
    else some r1
  | [] => some r1

/-- Consume a JSON number: `-?(0|[1-9][0-9]*)(\.[0-9]+)?([eE][+-]?[0-9]+)?`. -/
def jsonNumber (l : List Char) : Option (List Char) :=
  let l1 := match l with
    | '-' :: r => r
    | r => r
  match l1 with
  | [] => none
  | c :: r =>
    if c = '0' then
      jsonNumberFrac r
    else if c.isDigit then
      jsonNumberFrac (r.dropWhile Char.isDigit)
    else none

mutual

/-- Consume one JSON value (after skipping leading whitespace). -/
def jsonValue : Nat → List Char → Option (List Char)
  | 0, _ => none
  | fuel + 1, l₀ =>
    let l := jsonSkipWs l₀
    if "true".toList.isPrefixOf l then some (l.drop 4)
    else if "false".toList.isPrefixOf l then some (l.drop 5)
    else if "null".toList.isPrefixOf l then some (l.drop 4)
    else if "NaN".toList.isPrefixOf l then some (l.drop 3)
    else if "-Infinity".toList.isPrefixOf l then some (l.drop 9)
    else if "Infinity".toList.isPrefixOf l then some (l.drop 8)
    else
      match l with
      | '"' :: r => jsonStrBody (r.length + 1) r
      | '\x7b' :: r =>
        let r1 := jsonSkipWs r
        match r1 with
        | '\x7d' :: r2 => some r2
        | _ => jsonMembers fuel r1
      | '[' :: r =>
        let r1 := jsonSkipWs r
        match r1 with
        | ']' :: r2 => some r2
        | _ => jsonItems fuel r1
      | _ => jsonNumber l

/-- Consume `string : value (, string : value)* }` inside an object. -/
def jsonMembers : Nat → List Char → Option (List Char)
  | 0, _ => none
  | fuel + 1, l =>
    match l with
    | '"' :: r =>
      match jsonStrBody (r.length + 1) r with
      | none => none
      | some r1 =>
        match jsonSkipWs r1 with
        | ':' :: r2 =>
          match jsonValue fuel r2 with
          | none => none
          | some r3 =>
            match jsonSkipWs r3 with
            | ',' :: r4 => jsonMembers fuel (jsonSkipWs r4)
            | '\x7d' :: r4 => some r4
            | _ => none
        | _ => none
    | _ => none

/-- Consume `value (, value)* ]` inside an array. -/
def jsonItems : Nat → List Char → Option (List Char)
  | 0, _ => none
  | fuel + 1, l =>
    match jsonValue fuel l with
    | none => none
    | some r =>
      match jsonSkipWs r with
      | ',' :: r1 => jsonItems fuel r1
      | ']' :: r1 => some r1
      | _ => none

end

/-- Does `json.loads(content)` succeed? -/
def jsonLoadsOk (s : String) : Bool :=
  match jsonValue (2 * s.toList.length + 8) s.toList with
  | some rest => (jsonSkipWs rest).isEmpty
  | none => false

/-! ## `detect_file_type` -/

/-- The content-based heuristics chain of `detect_file_type` (lines 247-262
of the source): ordered substring checks, each gated by a filename
plausibility test when a filename is present. -/
def detectByContent (filename content : String) : String :=
  let fl := pyLower filename
  let gate := fun (pat : String) =>
    if filename ≠ "" then strContains fl pat else true
  if strContains content "public class " ∧ gate ".java" then "Java"
  else if strContains content "def " ∧ gate ".py" then "Python"
  else if strContains content "function " ∧ gate ".js" then "JavaScript"
  else if strContains content "#include" ∧
      (if filename ≠ "" then strContains fl ".c" ∨ strContains fl ".h" else true) then "C"
  else if strContains content "<?php" then "PHP"
  else if strContains content "package " ∧ gate ".go" then "Go"
  else if strContains content "fn " ∧ gate ".rs" then "Rust"
  else "Unknown"

/-- `detect_file_type(filename, content)` from `backend/app.py`: filename
special cases, then the extension table (`.json` only when the content is
valid JSON), then the ordered content-substring heuristics, then `'Unknown'`. -/
def detect_file_type (filename content : String) : String :=
  if filename ≠ "" then
    let name_lower := pyLower filename
    if name_lower = ".env" ∨ pyStartsWith name_lower ".env." then "Environment Variables"
    else if name_lower = ".gitignore" ∨ name_lower = ".dockerignore" then "Ignore File"
    else
      let ext := pyLower (pathSuffix filename)
      if ext = ".tsx" then "TypeScript React"
      else if ext = ".ts" then "TypeScript"
      else if ext = ".jsx" then "JavaScript React"
      else if ext = ".json" then
        -- on invalid JSON the `except: pass` falls through to the
        -- content-based heuristics below
        if jsonLoadsOk content then "JSON" else detectByContent filename content
      else if ext = ".yml" ∨ ext = ".yaml" then "YAML"
      else if ext = ".xml" then "XML"
      else if ext = ".toml" then "TOML"
      else if ext = ".ini" ∨ ext = ".cfg" ∨ ext = ".config" then "Configuration File"
      else if ext = ".md" ∨ ext = ".markdown" then "Markdown"
      else detectByContent filename content
  else detectByContent filename content

/-! ## Data model -/

/-- The nine counters of the structure-analysis dictionaries.  Python `int`s:
two of them can go negative on the C fallback path, so all fields are `Int`. -/
structure StructureMetrics where
  total_lines : Int
  empty_lines : Int
  comment_lines : Int
  import_statements : Int
  function_definitions : Int
  class_definitions : Int
  variable_declarations : Int
  loops : Int
  conditionals : Int
deriving DecidableEq, Repr

/-- Node counts collected from a successful `ast.parse` walk in
`analyze_python_structure`: `ast` is a standard-library collaborator, so a
successful parse is represented by this summary (`Import`/`ImportFrom`,
`FunctionDef`, `ClassDef`, `Assign`, `For`/`While`, `If` node counts). -/
structure PySummary where
  imports : Nat
  functions : Nat
  classes : Nat
  assigns : Nat
  loops : Nat
  conditionals : Nat
deriving DecidableEq, Repr

/-- Top-level node counts from a successful `pycparser` parse in
`analyze_c_structure` (`Include`, `FuncDef`, `Struct`/`Union`, `Decl` counts
over `ast.ext`). -/
structure CSummary where
  includes : Nat
  funcdefs : Nat
  structs : Nat
  decls : Nat
deriving DecidableEq, Repr

/-- Result record of `detect_ml_code`. -/
structure MLInfo where
  is_ml_code : Bool
  frameworks : List String
  operations : List String
deriving DecidableEq, Repr

/-! ## `detect_ml_code` -/

/-- The `ml_frameworks` table, in dict insertion order. -/
def mlFrameworks : List (String × List String) :=
  [("tensorflow", ["tensorflow", "tf", "keras"]),
   ("pytorch", ["torch", "nn.Module"]),
   ("scikit-learn", ["sklearn", "LinearRegression", "RandomForest"]),
   ("xgboost", ["xgboost", "XGBClassifier"]),
   ("pandas", ["pandas", "pd.DataFrame"]),
   ("numpy", ["numpy", "np.array"])]

/-- The `ml_operations` table, in dict insertion order. -/
def mlOperations : List (String × List String) :=
  [("training", ["fit", "train", "optimizer", "loss", "train_test_split"]),
   ("prediction", ["predict", "inference", "evaluate", "score"]),
   ("preprocessing", ["transform", "preprocessing", "standardization", "normalize"]),
   ("evaluation", ["accuracy", "precision", "recall", "f1", "roc_auc", "confusion_matrix"])]

/-- `any(pattern in content for pattern in patterns)`. -/
def mlMatches (content : String) (entry : String × List String) : Bool :=
  entry.2.any (fun pat => strContains content pat)

/-- One iteration of the framework-table loop of `detect_ml_code`. -/
def mlFwStep (content : String) (ml : MLInfo) (entry : String × List String) : MLInfo :=
  if mlMatches content entry then ⟨true, ml.frameworks ++ [entry.1], ml.operations⟩ else ml

/-- One iteration of the operation-table loop of `detect_ml_code`. -/
def mlOpStep (content : String) (ml : MLInfo) (entry : String × List String) : MLInfo :=
  if mlMatches content entry then ⟨true, ml.frameworks, ml.operations ++ [entry.1]⟩ else ml

/-- `detect_ml_code(content, language)`: both table loops append the matched
category name and set `is_ml_code` (the `language` argument is unused by the
source body as well). -/
def detect_ml_code (content language : String) : MLInfo :=
  mlOperations.foldl (mlOpStep content)
    (mlFrameworks.foldl (mlFwStep content) ⟨false, [], []⟩)

/-! ## Structure analyzers -/

/-- `analyze_python_structure(content)`.  The `try` branch uses the node
counts of the parse tree; the `except` branch (parse failure, `parsed =
none`) keeps the three text-derived counters and zeroes the rest. -/
def analyze_python_structure (parsed : Option PySummary) (content : String) : StructureMetrics :=
  match parsed with
  | some t =>
    { total_lines := (pySplitlines content).length
      empty_lines := pyCount content "\n\n"
      comment_lines := pyCount content "#"
      import_statements := t.imports
      function_definitions := t.functions
      class_definitions := t.classes
      variable_declarations := t.assigns
      loops := t.loops
      conditionals := t.conditionals }
  | none =>
    { total_lines := (pySplitlines content).length
      empty_lines := pyCount content "\n\n"
      comment_lines := pyCount content "#"
      import_statements := 0
      function_definitions := 0
      class_definitions := 0
      variable_declarations := 0
      loops := 0
      conditionals := 0 }

/-- `analyze_c_structure(content)`.  On parse failure the source falls back
to text counts; `function_definitions` is literally
`content.count('{') - content.count('}')` ("rough estimate") and
`variable_declarations` is `count(';') - count('for') - count('while')`,
both of which can be negative.  (In the real system the `try` branch always
raises — `pycparser.c_ast` has no `Include` attribute — so the fallback is
the live path; the `some` branch mirrors the code as written.) -/
def analyze_c_structure (parsed : Option CSummary) (content : String) : StructureMetrics :=
  match parsed with
  | some t =>
    { total_lines := (pySplitlines content).length
      empty_lines := pyCount content "\n\n"
      comment_lines := (pyCount content "//" : Nat) + pyCount content "/*"
      import_statements := t.includes
      function_definitions := t.funcdefs
      class_definitions := t.structs
      variable_declarations := t.decls
      loops := (pyCount content "for" : Nat) + pyCount content "while"
      conditionals := (pyCount content "if" : Nat) + pyCount content "switch" }
  | none =>
    { total_lines := (pySplitlines content).length
      empty_lines := pyCount content "\n\n"
      comment_lines := (pyCount content "//" : Nat) + pyCount content "/*"
      import_statements := pyCount content "#include"
      function_definitions := (pyCount content "\x7b" : Int) - (pyCount content "\x7d" : Int)
      class_definitions := (pyCount content "struct" : Nat) + pyCount content "union"
      variable_declarations :=
        (pyCount content ";" : Int) - (pyCount content "for" : Int) - (pyCount content "while" : Int)
      loops := (pyCount content "for" : Nat) + pyCount content "while"
      conditionals := (pyCount content "if" : Nat) + pyCount content "switch" }

/-- `analyze_code_structure(code, file_type)`: dispatch to the Python or C
analyzer, otherwise the generic keyword counting.  (Note: the source never
routes any label to `analyze_config_file`.) -/
def analyze_code_structure (pyParsed : Option PySummary) (cParsed : Option CSummary)
    (code file_type : String) : StructureMetrics :=
  if file_type = "Python" then analyze_python_structure pyParsed code
  else if file_type = "C" ∨ file_type = "C++" then analyze_c_structure cParsed code
  else
    { total_lines := (pySplitlines code).length
      empty_lines := pyCount code "\n\n"
      comment_lines := (pyCount code "//" : Nat) + pyCount code "/*" + pyCount code "#"
      import_statements := (pyCount code "import" : Nat) + pyCount code "require" + pyCount code "#include"
      function_definitions :=
        (pyCount code "function" : Nat) + pyCount code "def" + pyCount code "void" + pyCount code "int"
      class_definitions := (pyCount code "class" : Nat) + pyCount code "struct"
      variable_declarations :=
        (pyCount code "let" : Nat) + pyCount code "const" + pyCount code "var" +
          pyCount code "int" + pyCount code "float"
      loops := (pyCount code "for" : Nat) + pyCount code "while"
      conditionals := (pyCount code "if" : Nat) + pyCount code "switch" }

/-- `analyze_config_file(content, file_type)` — defined in the source but
never invoked by `analyze_code_structure` or the endpoint.  In the JSON
branch the source computes `len(str(data).count(': '))` inside the `try`:
`len` of an `int` raises `TypeError`, which the bare `except: pass`
swallows, so `variable_declarations` stays 0 there. -/
def analyze_config_file (content file_type : String) : StructureMetrics :=
  let lines := pySplitOnNl content
  let base : StructureMetrics :=
    { total_lines := lines.length
      empty_lines := (lines.filter (fun l => pyStrip l = "")).length
      comment_lines := 0
      import_statements := 0
      function_definitions := 0
      class_definitions := 0
      variable_declarations := 0
      loops := 0
      conditionals := 0 }
  let non_empty_lines := (lines.filter (fun l => pyStrip l ≠ "")).map pyStrip
  if file_type = "JSON" then base
  else if file_type = "Environment Variables" then
    { base with
      variable_declarations :=
        ((non_empty_lines.filter (fun l => strContains l "=" ∧ ¬ pyStartsWith l "#")).length : Nat)
      comment_lines := ((lines.filter (fun l => pyStartsWith (pyStrip l) "#")).length : Nat) }
  else if file_type = "YAML" ∨ file_type = "Configuration File" then
    { base with
      variable_declarations := ((non_empty_lines.filter (fun l => strContains l ":")).length : Nat)
      comment_lines := ((lines.filter (fun l => pyStartsWith (pyStrip l) "#")).length : Nat) }
  else if file_type = "XML" then
    { base with
      variable_declarations := (pyCount content "</" : Nat)
      comment_lines := (pyCount content "<!--" : Nat) }
  else if file_type = "Markdown" then
    { base with
      comment_lines := ((lines.filter (fun l => pyStartsWith (pyStrip l) "<!--")).length : Nat) }
  else if file_type = "Ignore File" then
    { base with
      comment_lines := ((lines.filter (fun l => pyStartsWith (pyStrip l) "#")).length : Nat)
      variable_declarations :=
        ((non_empty_lines.filter (fun l => ¬ pyStartsWith l "#")).length : Nat) }
  else base

/-! ## Complexity estimators -/

/-- `calculate_cyclomatic_complexity(code)`: one plus the total substring
count of the decision-point tokens. -/
def calculate_cyclomatic_complexity (code : String) : Nat :=
  (pyCount code "if" + pyCount code "else" +
   pyCount code "for" + pyCount code "while" +
   pyCount code "case" + pyCount code "catch" +
   pyCount code "&&" + pyCount code "||" +
   pyCount code "?") + 1

/-- One line step of `calculate_cognitive_complexity`: state is
`(complexity, nesting_level)`. -/
def cognitiveStep (acc : Nat × Nat) (line : String) : Nat × Nat :=
  let acc1 :=
    if ["if", "for", "while", "switch"].any (fun kw => strContains line kw) then
      (acc.1 + (1 + acc.2), acc.2 + 1)
    else if strContains line "\x7d" then
      (acc.1, acc.2 - 1)  -- max(0, nesting_level - 1) is Nat subtraction
    else acc
  if ["break", "continue", "return", "throw"].any (fun kw => strContains line kw) then
    (acc1.1 + 1, acc1.2)
  else acc1

/-- `calculate_cognitive_complexity(code)`. -/
def calculate_cognitive_complexity (code : String) : Nat :=
  ((pySplitlines code).foldl cognitiveStep (0, 0)).1

/-- `comment_ratio = comment_lines / total_lines` of
`calculate_maintainability_index`, over `ℝ`. -/
noncomputable def miCommentRat (st : StructureMetrics) : ℝ :=
  (st.comment_lines : ℝ) / (st.total_lines : ℝ)

/-- `complexity_per_line = (loops + conditionals + function_definitions) /
total_lines` of `calculate_maintainability_index`, over `ℝ`. -/
noncomputable def miCplPerLine (st : StructureMetrics) : ℝ :=
  ((st.loops + st.conditionals + st.function_definitions : Int) : ℝ) / (st.total_lines : ℝ)

/-- `calculate_maintainability_index(structure)` over `ℝ` (Python floats
modelled by reals).  The second `if` models the `except` branch: `math.log`
raises `ValueError` exactly on arguments `≤ 0`, and the handler returns
`0.0`.  Otherwise the formula is clamped into `[0, 100]`. -/
noncomputable def calculate_maintainability_index (st : StructureMetrics) : ℝ :=
  if st.total_lines = 0 then 100
  else if miCplPerLine st ≤ 0 ∨ (st.total_lines : ℝ) ≤ 0 ∨ miCommentRat st ≤ 0 then 0
  else
    max 0 (min 100
      (171 - 5.2 * Real.log (miCplPerLine st) - 0.23 * Real.log (st.total_lines : ℝ) -
        16.2 * Real.log (miCommentRat st)))

/-! ## Embedded regular expressions of the documentation rewriter

Each scanner implements Python's leftmost-position / first-alternative
semantics for one concrete pattern of the source.  They are applied to
single lines (no `'\n'` inside), as in the source. -/

/-- Maximal `\w+` run. -/
def wordRun (l : List Char) : List Char :=
  l.takeWhile isWordChar

/-- Skip `\s*`. -/
def skipWs (l : List Char) : List Char :=
  l.dropWhile pyIsWs

/-- `\s+(\w+)`: at least one whitespace character, then the (greedy) word. -/
def wsThenWord (l : List Char) : Option (List Char) :=
  let ws := l.takeWhile pyIsWs
  if ws.isEmpty then none
  else
    let w := wordRun (l.drop ws.length)
    if w.isEmpty then none else some w

/-- `re.match(r'^\s*(import|from|require|using)\s+', stripped)` — the input
is already stripped, so the leading `\s*` is vacuous. -/
def importMatch (stripped : String) : Bool :=
  ["import", "from", "require", "using"].any (fun kw =>
    kw.toList.isPrefixOf stripped.toList &&
      (match stripped.toList.drop kw.toList.length with
       | c :: _ => pyIsWs c
       | [] => false))

/-- One-position test for `(class\s+\w+|interface\s+\w+|type\s+\w+\s*=)`. -/
def classPatAt (l : List Char) : Bool :=
  ("class".toList.isPrefixOf l && (wsThenWord (l.drop 5)).isSome) ||
  ("interface".toList.isPrefixOf l && (wsThenWord (l.drop 9)).isSome) ||
  ("type".toList.isPrefixOf l &&
    (match wsThenWord (l.drop 4) with
     | some w =>
       match skipWs (((l.drop 4).dropWhile pyIsWs).drop w.length) with
       | '=' :: _ => true
       | _ => false
     | none => false))

/-- `re.search(r'(class\s+\w+|interface\s+\w+|type\s+\w+\s*=)', stripped)`. -/
def classSearch : List Char → Bool
  | [] => false
  | c :: rest => classPatAt (c :: rest) || classSearch rest

/-- One-position match for `(class|interface|type)\s+(\w+)`, alternatives in
pattern order; returns (group 1, group 2). -/
def classNameAt (l : List Char) : Option (String × String) :=
  (if "class".toList.isPrefixOf l then
     (wsThenWord (l.drop 5)).map (fun w => ("class", String.mk w))
   else none)
  <|> (if "interface".toList.isPrefixOf l then
         (wsThenWord (l.drop 9)).map (fun w => ("interface", String.mk w))
       else none)
  <|> (if "type".toList.isPrefixOf l then
         (wsThenWord (l.drop 4)).map (fun w => ("type", String.mk w))
       else none)

/-- `re.search(r'(class|interface|type)\s+(\w+)', stripped)` (leftmost). -/
def classNameSearch : List Char → Option (String × String)
  | [] => none
  | c :: rest => classNameAt (c :: rest) <|> classNameSearch rest

/-- The optional name groups of the function-definition pattern:
group 2 (`function NAME`), group 3 (`NAME = (...) =>`), group 4 (`def NAME`). -/
structure FuncMatch where
  g2 : Option String
  g3 : Option String
  g4 : Option String
deriving DecidableEq, Repr

/-- Tail of the arrow-function alternative after the opening parenthesis:
`.*\)\s*=>` — some later `')'` followed by `\s*` and `=>`. -/
def arrowScan : List Char → Bool
  | [] => false
  | c :: rest => (c = ')' && "=>".toList.isPrefixOf (skipWs rest)) || arrowScan rest

/-- One-position match for
`(function\s+(\w+)|\w+\s*:\s*function|(\w+)\s*=\s*\(.*\)\s*=>|def\s+(\w+))`,
alternatives in pattern order. -/
def funcMatchAt (l : List Char) : Option FuncMatch :=
  (if "function".toList.isPrefixOf l then
     (wsThenWord (l.drop 8)).map (fun w => (⟨some (String.mk w), none, none⟩ : FuncMatch))
   else none)
  <|> (let w := wordRun l
       if w.isEmpty then none
       else
         match skipWs (l.drop w.length) with
         | ':' :: r =>
           if "function".toList.isPrefixOf (skipWs r) then
             some (⟨none, none, none⟩ : FuncMatch)
           else none
         | _ => none)
  <|> (let w := wordRun l
       if w.isEmpty then none
       else
         match skipWs (l.drop w.length) with
         | '=' :: r =>
           match skipWs r with
           | '(' :: r2 =>
             if arrowScan r2 then some (⟨none, some (String.mk w), none⟩ : FuncMatch) else none
           | _ => none
         | _ => none)
  <|> (if "def".toList.isPrefixOf l then
         (wsThenWord (l.drop 3)).map (fun w => (⟨none, none, some (String.mk w)⟩ : FuncMatch))
       else none)

/-- `re.search` for the function-definition pattern (leftmost position). -/
def funcSearch : List Char → Option FuncMatch
  | [] => none
  | c :: rest => funcMatchAt (c :: rest) <|> funcSearch rest

/-- Keyword alternatives of the variable-declaration pattern. -/
def varKeywords : List String :=
  ["var", "let", "const", "int", "float", "string", "bool"]

/-- Keyword alternative `KW` followed by `\s+(\w+)`. -/
def varMatchKw (kw : String) (l : List Char) : Option String :=
  if kw.toList.isPrefixOf l then (wsThenWord (l.drop kw.toList.length)).map String.mk else none

/-- The `\w+:\s*\w+` alternative followed by `\s+(\w+)`. -/
def varMatchTyped (l : List Char) : Option String :=
  let w := wordRun l
  if w.isEmpty then none
  else
    match l.drop w.length with
    | ':' :: r =>
      let r2 := skipWs r
      let w2 := wordRun r2
      if w2.isEmpty then none
      else (wsThenWord (r2.drop w2.length)).map String.mk
    | _ => none

/-- `re.match(r'^\s*(var|let|const|int|float|string|bool|\w+:\s*\w+)\s+(\w+)',
stripped)` — anchored; returns group 2. -/
def varMatch (stripped : String) : Option String :=
  varMatchKw "var" stripped.toList <|> varMatchKw "let" stripped.toList <|>
  varMatchKw "const" stripped.toList <|> varMatchKw "int" stripped.toList <|>
  varMatchKw "float" stripped.toList <|> varMatchKw "string" stripped.toList <|>
  varMatchKw "bool" stripped.toList <|> varMatchTyped stripped.toList

/-- Word-bounded occurrence: `\bW\b` at the head of `l`, with `prev` the
character immediately before `l` (if any). -/
def wordAt (w : List Char) (prev : Option Char) (l : List Char) : Bool :=
  (match prev with
   | none => true
   | some p => !isWordChar p) &&
  w.isPrefixOf l &&
  (match l.drop w.length with
   | c :: _ => !isWordChar c
   | [] => true)

/-- Scan for any of the words `ws` with `\b` boundaries. -/
def wordScan (ws : List (List Char)) : Option Char → List Char → Bool
  | _, [] => false
  | prev, c :: rest =>
    ws.any (fun w => wordAt w prev (c :: rest)) || wordScan ws (some c) rest

/-- `re.search(r'\b(for|while|do)\b', stripped)`. -/
def loopSearch (stripped : String) : Bool :=
  wordScan ["for".toList, "while".toList, "do".toList] none stripped.toList

/-- `re.search(r'\b(if|else|switch|case)\b', stripped)`. -/
def condSearch (stripped : String) : Bool :=
  wordScan ["if".toList, "else".toList, "switch".toList, "case".toList] none stripped.toList

/-- `re.search(r'\((.*?)\)', line)`: leftmost `'('` that has a later `')'`;
the lazy group is everything up to the first `')'` after it. -/
def parenScan : List Char → Option String
  | [] => none
  | c :: rest =>
    if c = '(' && rest.contains ')' then
      some (String.mk (rest.takeWhile (fun d => d ≠ ')')))
    else parenScan rest

/-- One match step of `re.findall(r'[A-Z]?[a-z]+|[A-Z]+(?=[A-Z]|$)', s)`:
returns the matched word and the rest of the input after it. -/
def camelMatchAt (l : List Char) : Option (List Char × List Char) :=
  match l with
  | [] => none
  | c :: rest =>
    if c.isUpper then
      let lows := rest.takeWhile Char.isLower
      if !lows.isEmpty then some (c :: lows, rest.drop lows.length)
      else
        let ups := (c :: rest).takeWhile Char.isUpper
        match (c :: rest).drop ups.length with
        | [] => some (ups, [])
        | _ :: _ =>
          -- greedy `[A-Z]+` backtracks one step so the lookahead `(?=[A-Z]|$)`
          -- sees the final uppercase character
          if ups.length ≥ 2 then
            some (ups.take (ups.length - 1), (c :: rest).drop (ups.length - 1))
          else none
    else if c.isLower then
      let lows := (c :: rest).takeWhile Char.isLower
      some (lows, (c :: rest).drop lows.length)
    else none

/-- Fuelled findall loop (each match consumes at least one character). -/
def camelWordsGo : Nat → List Char → List (List Char)
  | 0, _ => []
  | _, [] => []
  | fuel + 1, c :: rest =>
    match camelMatchAt (c :: rest) with
    | some (w, r) => w :: camelWordsGo fuel r
    | none => camelWordsGo fuel rest

/-- `re.findall(r'[A-Z]?[a-z]+|[A-Z]+(?=[A-Z]|$)', s)`. -/
def camelWords (s : String) : List String :=
  (camelWordsGo (s.toList.length + 1) s.toList).map String.mk

/-! ## `analyze_function_purpose` -/

/-- The `prefixes` dict in iteration order.  The source dict literal lists
the key `'handle'` twice (`'Manages or processes'`, then
`'Processes or manages'` at the end): Python keeps the first insertion
position with the last value, so the effective table has one `handle` entry
with the overwritten meaning. -/
def purposePrefixes : List (String × String) :=
  [("get", "Retrieves or calculates"),
   ("set", "Updates or changes"),
   ("is", "Checks if"),
   ("has", "Checks if it contains"),
   ("calc", "Calculates"),
   ("compute", "Computes or calculates"),
   ("create", "Creates a new"),
   ("build", "Constructs"),
   ("make", "Creates"),
   ("generate", "Produces or creates"),
   ("find", "Searches for"),
   ("search", "Searches for"),
   ("parse", "Analyzes and processes"),
   ("format", "Formats or structures"),
   ("convert", "Converts or transforms"),
   ("transform", "Transforms"),
   ("validate", "Validates or checks"),
   ("check", "Checks or verifies"),
   ("handle", "Processes or manages"),
   ("process", "Processes"),
   ("update", "Updates"),
   ("delete", "Removes"),
   ("remove", "Removes"),
   ("add", "Adds"),
   ("insert", "Inserts"),
   ("fetch", "Retrieves data"),
   ("load", "Loads data"),
   ("save", "Saves or persists"),
   ("store", "Stores or saves"),
   ("render", "Displays or renders"),
   ("display", "Shows or displays"),
   ("print", "Outputs or prints"),
   ("log", "Records or logs"),
   ("init", "Initializes"),
   ("initialize", "Sets up initial state"),
   ("setup", "Configures or sets up"),
   ("configure", "Configures"),
   ("start", "Begins or initiates"),
   ("stop", "Stops or terminates"),
   ("pause", "Temporarily halts"),
   ("resume", "Continues after pausing"),
   ("on", "Handles event")]

/-- The `return_patterns` dict in iteration order. -/
def returnPatterns : List (String × List String) :=
  [("boolean", ["return true", "return false", "return (", "return !", "return !!"]),
   ("string", ["return \"", "return \x27", "return \x60", "+", "concat", "join", "toString"]),
   ("number", ["return 0", "return 1", "return -", "return parseFloat", "return parseInt", "Math."]),
   ("array", ["return [", "push(", "pop(", "shift(", "filter(", "map(", "forEach(", "reduce("]),
   ("object", ["return \x7b", "return new", ".keys(", ".values(", ".entries("]),
   ("void", ["return;", "setState", "this.state", "console.log"])]

def uiPatterns : List String :=
  ["render", "component", "props", "state", "useState", "useEffect", "return <", "className", "style="]

def apiPatterns : List String :=
  ["fetch(", "axios", "http", ".get(", ".post(", ".put(", ".delete(", "request", "response"]

def dataPatterns : List String :=
  ["map", "filter", "reduce", "forEach", ".find(", ".sort(", "array", "object", "json"]

def eventPatterns : List String :=
  ["click", "change", "submit", "event", "handler", "listener", "on", "addEventListener"]

/-- `analyze_function_purpose(func_name, func_content, language)`; the
`language` argument is unused by the source body as well. -/
def analyze_function_purpose (func_name func_content language : String) : String :=
  let func_name_clean := pyLower (joinSep " " (camelWords func_name))
  let purpose0 :=
    match purposePrefixes.find? (fun pr => pyStartsWith (pyLower func_name) pr.1) with
    | some pr =>
      let remaining := pyStrip (String.mk (func_name.toList.drop pr.1.toList.length))
      if remaining ≠ "" then
        pr.2 ++ " " ++ pyLower (joinSep " " (camelWords remaining))
      else pr.2 ++ " data"
    | none => "Handles " ++ func_name_clean ++ " functionality"
  let return_type :=
    (returnPatterns.find? (fun pr => pr.2.any (fun p => strContains func_content p))).map Prod.fst
  let enh0 : List String :=
    match return_type with
    | some t => ["returns " ++ t]
    | none => []
  let enh1 :=
    if uiPatterns.any (fun p => strContains func_content p) then
      enh0 ++ ["manages UI components or rendering"]
    else if apiPatterns.any (fun p => strContains func_content p) then
      enh0 ++ ["communicates with external API or services"]
    else if dataPatterns.any (fun p => strContains func_content p) then
      enh0 ++ ["processes or transforms data"]
    else if eventPatterns.any (fun p => strContains func_content p) then
      enh0 ++ ["handles user interactions or events"]
    else enh0
  if enh1 ≠ [] then purpose0 ++ " and " ++ joinSep ", " enh1 else purpose0

/-! ## `generate_documented_code` -/

/-- Comment delimiters chosen by language family. -/
structure CommentMarkers where
  single : String
  multiStart : String
  multiLine : String
  multiEnd : String
deriving DecidableEq, Repr

/-- The delimiter-selection chain of the source. -/
def commentMarkers (language : String) : CommentMarkers :=
  if language ∈ ["JavaScript", "TypeScript", "JavaScript React", "TypeScript React",
                 "C", "C++", "Java", "C#"] then
    ⟨"//", "/**", " * ", " */"⟩
  else if language ∈ ["Python", "Ruby", "Shell", "Bash", "YAML"] then
    ⟨"#", "\"\"\"", "", "\"\"\""⟩
  else if language ∈ ["HTML", "XML"] then
    ⟨"<!-- ", "<!-- ", "", " -->"⟩
  else
    ⟨"//", "/*", " * ", " */"⟩

/-- Python-mode function-body collection: lines strictly more indented than
the definition line, blank lines included. -/
def pyBodyLoop (base : Nat) : List String → String
  | [] => ""
  | l :: ls =>
    if leadingWsCount l > base ∨ pyStrip l = "" then l ++ "\n" ++ pyBodyLoop base ls
    else ""

/-- `func_body` for Python: the definition line itself plus `pyBodyLoop`. -/
def pyFuncBody (line : String) (rest : List String) : String :=
  line ++ "\n" ++ pyBodyLoop (leadingWsCount line) rest

/-- Brace balance `line.count('{') - line.count('}')` of one line. -/
def braceDelta (l : String) : Int :=
  (pyCount l "\x7b" : Int) - (pyCount l "\x7d" : Int)

/-- Brace-mode collection loop: keep consuming lines while the running
balance is positive, adding each consumed line's balance. -/
def braceLoop : Int → List String → String
  | _, [] => ""
  | ob, l :: ls => if ob > 0 then l ++ "\n" ++ braceLoop (ob + braceDelta l) ls else ""

/-- `func_body` for brace languages.  The source seeds the balance with the
definition line's braces (only when it contains `'{'`) and then, after the
first iteration, adds the definition line's balance again
(`lines[j-1]` with `j = i+1`) — that double count is reproduced here. -/
def braceFuncBody (line : String) (rest : List String) : String :=
  let ob0 : Int := if strContains line "\x7b" then braceDelta line else 0
  line ++ "\n" ++ braceLoop (ob0 + braceDelta line) rest

/-- The `@param` lines: parameters from the lazy paren group of the
definition line, split on `','`; each name is the part before `':'`
(or before `'='`). -/
def paramAnns (m : CommentMarkers) (line : String) : List String :=
  match parenScan line.toList with
  | none => []
  | some inner =>
    if pyStrip inner ≠ "" then
      (pySplitOnChar ',' inner).filterMap (fun param =>
        let p := pyStrip param
        if p ≠ "" ∧ p ≠ ")" then
          let param_name :=
            if strContains p ":" then pyStrip ((pySplitOnChar ':' p).headD "")
            else pyStrip ((pySplitOnChar '=' p).headD "")
          some (m.multiLine ++ "@param " ++ param_name ++ " - Parameter description")
        else none)
    else []

/-- The `@returns` line, inferred by keyword scan of the function body. -/
def returnAnns (m : CommentMarkers) (language : String) (func_body : String) : List String :=
  if language ∈ ["JavaScript", "TypeScript", "Java", "C#"] then
    if strContains func_body "return " then
      if strContains func_body "return true" ∨ strContains func_body "return false" then
        [m.multiLine ++ "@returns Boolean indicating success or validation result"]
      else if strContains func_body "return \x7b" ∨ strContains func_body "return new " then
        [m.multiLine ++ "@returns Object containing the result data"]
      else if strContains func_body "return [" then
        [m.multiLine ++ "@returns Array of items"]
      else if strContains func_body "return null" then
        [m.multiLine ++ "@returns Null in certain conditions"]
      else [m.multiLine ++ "@returns Result of the operation"]
    else [m.multiLine ++ "@returns Void - no return value"]
  else [m.multiLine ++ "@returns Description of return value"]

/-- Variable-purpose inference from the declared name. -/
def varPurpose (var_name : String) : String :=
  let low := pyLower var_name
  if strContains var_name "_id" ∨ strContains var_name "Id" then "stores identifier"
  else if strContains low "count" ∨ strContains low "num" then "stores numeric count"
  else if strContains low "name" then "stores name string"
  else if strContains low "is" ∨ strContains low "has" ∨ strContains low "should" then
    "stores boolean flag"
  else if strContains low "date" ∨ strContains low "time" then "stores date/time value"
  else if strContains low "list" ∨ strContains low "array" ∨ pyEndsWith var_name "s" then
    "stores collection of items"
  else if strContains low "config" ∨ strContains low "options" ∨ strContains low "settings" then
    "stores configuration options"
  else "stores data"

/-- Loop-purpose inference. -/
def loopPurpose (stripped : String) : String :=
  if strContains stripped "i = 0" ∨ strContains stripped "i=0" ∨ strContains stripped "let i" then
    "iterating through indices"
  else if strContains stripped "forEach" ∨ strContains stripped "map" then
    "processing each item in collection"
  else if strContains stripped "while" ∧ (strContains stripped "true" ∨ strContains stripped "1") then
    "running continuously until interrupted"
  else "iterating through items"

/-- Conditional-line annotation (substring checks, as in the source; the
final `[]` case cannot fire when `condSearch` matched but keeps the
function total). -/
def condAnns (m : CommentMarkers) (stripped : String) : List String :=
  if strContains stripped "if" then
    if strContains stripped "null" ∨ strContains stripped "undefined" then
      [m.single ++ " Conditional check for null/undefined value"]
    else if strContains stripped "==" ∨ strContains stripped "===" then
      [m.single ++ " Conditional check for equality"]
    else if strContains stripped ">" ∨ strContains stripped "<" then
      [m.single ++ " Conditional check for comparison"]
    else [m.single ++ " Conditional check"]
  else if strContains stripped "else" then [m.single ++ " Alternative condition"]
  else if strContains stripped "switch" ∨ strContains stripped "case" then
    [m.single ++ " Switch case for multiple conditions"]
  else []

/-- The annotation lines that the body of the `while` loop of
`generate_documented_code` emits immediately before the current original
line.  `prev` is the previous original line (`lines[i-1]`), `rest` the
following ones (`lines[i+1:]`, used for function-body extraction).  Every
branch of the loop appends the original line after these annotations and
advances by one line. -/
def docAnns (language : String) (m : CommentMarkers) (prev : Option String)
    (line : String) (rest : List String) : List String :=
  let stripped := pyStrip line
  if stripped = "" then []
  else if ["//", "/*", "*/", "#", "<!--", "-->"].any (fun p => pyStartsWith stripped p) then []
  else if importMatch stripped then
    if (match prev with
        | none => true
        | some pl => ¬ importMatch (pyStrip pl)) then
      [m.single ++ " Imports required modules"]
    else []
  else if classSearch stripped.toList then
    match classNameSearch stripped.toList with
    | some (kw, name) =>
      -- the guard `len(class_name.groups()) > 1` always holds (two groups)
      [m.multiStart, m.multiLine ++ pyCapitalize kw ++ " " ++ name,
       m.multiLine ++ "Description: Defines the " ++ name ++ " " ++ kw, m.multiEnd]
    | none => [m.single ++ " Defines a " ++ firstWord stripped]
  else
    match funcSearch stripped.toList with
    | some fm =>
      match fm.g2 <|> fm.g3 <|> fm.g4 with
      | some func_name =>
        let func_body :=
          if language = "Python" then pyFuncBody line rest else braceFuncBody line rest
        let purpose := analyze_function_purpose func_name func_body language
        [m.multiStart, m.multiLine ++ "Function: " ++ func_name,
         m.multiLine ++ "Description: " ++ purpose]
          ++ paramAnns m line ++ returnAnns m language func_body ++ [m.multiEnd]
      | none => [m.single ++ " Function definition"]
    | none =>
      match varMatch stripped with
      | some var_name => [m.single ++ " " ++ var_name ++ ": Variable that " ++ varPurpose var_name]
      | none =>
        if loopSearch stripped then [m.single ++ " Loop for " ++ loopPurpose stripped]
        else if condSearch stripped then condAnns m stripped
        else []

/-- The file-level header block of the programming-language path. -/
def fileHeader (language : String) (st : StructureMetrics) (m : CommentMarkers) : List String :=
  [m.multiStart,
   m.multiLine ++ "File: " ++ language ++ " code",
   m.multiLine ++ "Description: This file contains " ++ language ++ " code with " ++
     toString st.function_definitions ++ " functions and " ++
     toString st.class_definitions ++ " classes."]
  ++ (if st.import_statements > 0 then
        [m.multiLine ++ "Imports: " ++ toString st.import_statements ++
          " external modules/libraries"]
      else [])
  ++ [m.multiLine ++ "Total lines: " ++ toString st.total_lines, m.multiEnd, ""]

/-- The fixed banner of the structured/config path. -/
def configBanner (language : String) : List String :=
  if language = "JSON" then
    ["// JSON Configuration File",
     "// This file contains configuration settings in JSON format.", ""]
  else if language = "Environment Variables" then
    ["# Environment Variables",
     "# This file contains environment-specific configuration variables.", ""]
  else
    let comment_char := if language ∈ ["YAML", "Configuration File", "Ignore File"] then "#" else "//"
    [comment_char ++ " " ++ language ++ " File",
     comment_char ++ " This file contains configuration settings.", ""]

/-- Labels routed to the structured/config path of the rewriter. -/
def configLanguages : List String :=
  ["JSON", "Environment Variables", "YAML", "XML", "TOML", "Configuration File",
   "Markdown", "Ignore File"]

/-- The main line loop of the rewriter.  Each emitted line is tagged:
`true` for inserted annotation lines, `false` for original lines. -/
def docLoop (language : String) (m : CommentMarkers) :
    Option String → List String → List (Bool × String)
  | _, [] => []
  | prev, l :: ls =>
    (docAnns language m prev l ls).map (fun a => (true, a)) ++
      (false, l) :: docLoop language m (some l) ls

/-- All lines emitted by `generate_documented_code`, tagged with whether
they were inserted by the rewriter (`true`) or are original lines of the
input (`false`). -/
def docTagged (code language : String) (st : StructureMetrics) : List (Bool × String) :=
  if language ∈ configLanguages then
    (configBanner language).map (fun s => (true, s)) ++
      (pySplitOnNl code).map (fun l => (false, l))
  else
    (fileHeader language st (commentMarkers language)).map (fun s => (true, s)) ++
      docLoop language (commentMarkers language) none (pySplitOnNl code)

/-- `generate_documented_code(code, language, structure)`: the joined lines
of `docTagged`. -/
def generate_documented_code (code language : String) (st : StructureMetrics) : String :=
  joinSep "\n" ((docTagged code language st).map Prod.snd)

/-! ## `generate_code_explanation` and the endpoint composition -/

/-- `generate_code_explanation(code, language, structure)`.  The
`'ml_frameworks' in structure` and `'detailed_structure' in structure`
branches of the source are dead on every dictionary produced by
`analyze_code_structure` (those keys are never added), so they do not
appear here; the `code` argument is likewise unused by the live body. -/
def generate_code_explanation (code language : String) (st : StructureMetrics) : String :=
  "This is " ++
    (language ++ (" code with " ++ (toString st.total_lines ++ (" lines" ++
    (". It contains " ++ (toString st.function_definitions ++ (" functions, " ++
    (toString st.class_definitions ++ (" classes, and uses " ++
    (toString st.import_statements ++ (" imports. " ++
    (if st.loops > 0 ∨ st.conditionals > 0 then
      "The code includes " ++ (toString st.loops ++ (" loops and " ++
        (toString st.conditionals ++ " conditional statements. ")))
    else ""))))))))))))

/-- The response record of the `/api/analyze` endpoint. -/
structure AnalysisResult where
  language : String
  structure_ : StructureMetrics
  explanation : String
  documented_code : String
deriving Repr

/-- The core composition performed by `analyze_code` (the endpoint body
after input validation): detection, structure analysis, explanation and
documentation.  The two `Option` summaries model the external parser
outcomes threaded into the structure analyzer. -/
def analyze_code (pyParsed : Option PySummary) (cParsed : Option CSummary)
    (filename code : String) : AnalysisResult :=
  let file_type := detect_file_type filename code
  let st := analyze_code_structure pyParsed cParsed code file_type
  { language := file_type
    structure_ := st
    explanation := generate_code_explanation code file_type st
    documented_code := generate_documented_code code file_type st }

/-- Project an emitted line of `docTagged` away unless it is an original
line: inserted annotation lines (`true` tag) are removed. -/
def untag (p : Bool × String) : Option String :=
  if p.1 then none else some p.2

/-- Modelled from the spec: the `ast.parse` node-count summary for the
scenario input `"def get_user_name(id):\n    return name"`.  CPython's
`ast` module is an external collaborator not under `src/`; the spec's
Python-function scenario states the walk finds exactly one function
definition (and the input contains no imports, classes, assignments, loops
or conditionals). -/
def getUserNameSummary : PySummary := ⟨0, 1, 0, 0, 0, 0⟩

/-! ## Helper lemmas -/

theorem filterMap_untag_inserted (anns : List String) :
    (anns.map (fun a => ((true : Bool), a))).filterMap untag = [] := by
  induction anns with
  | nil => rfl
  | cons a anns ih => simp [List.filterMap_cons, untag, ih]

theorem filterMap_untag_original (ls : List String) :
    (ls.map (fun l => ((false : Bool), l))).filterMap untag = ls := by
  induction ls with
  | nil => rfl
  | cons l ls ih => simp [List.filterMap_cons, untag, ih]

/-- Removing the inserted lines from the rewriter's main loop output gives
back exactly the original lines. -/
theorem docLoop_filterMap (language : String) (m : CommentMarkers) :
    ∀ (ls : List String) (prev : Option String),
      (docLoop language m prev ls).filterMap untag = ls := by
  intro ls
  induction ls with
  | nil => intro prev; rfl
  | cons l ls ih =>
    intro prev
    simp [docLoop, List.filterMap_append, filterMap_untag_inserted,
      List.filterMap_cons, untag, ih]

/-- Removing the inserted lines from `docTagged` gives back `code.split('\n')`. -/
theorem docTagged_filterMap (code language : String) (st : StructureMetrics) :
    (docTagged code language st).filterMap untag = pySplitOnNl code := by
  unfold docTagged
  split_ifs with h
  · rw [List.filterMap_append, filterMap_untag_inserted, filterMap_untag_original,
      List.nil_append]
  · rw [List.filterMap_append, filterMap_untag_inserted, docLoop_filterMap,
      List.nil_append]

/-- The surviving lines of a `filterMap untag` are a sublist of all emitted
lines. -/
theorem filterMap_untag_sublist :
    ∀ l : List (Bool × String), List.Sublist (l.filterMap untag) (l.map Prod.snd) := by
  intro l
  induction l with
  | nil => simp
  | cons p l ih =>
    obtain ⟨b, s⟩ := p
    cases b
    · simpa [List.filterMap_cons, untag] using ih.cons₂ s
    · simpa [List.filterMap_cons, untag] using ih.cons s

/-- Every dispatch path of `analyze_code_structure` reports
`len(content.splitlines())` as `total_lines`. -/
theorem structure_total_lines (pyParsed : Option PySummary) (cParsed : Option CSummary)
    (code file_type : String) :
    (analyze_code_structure pyParsed cParsed code file_type).total_lines
      = ((pySplitlines code).length : Int) := by
  unfold analyze_code_structure analyze_python_structure analyze_c_structure
  split_ifs with h1 h2
  · cases pyParsed <;> rfl
  · cases cParsed <;> rfl
  · rfl

/-- Unfolding of the framework-table fold of `detect_ml_code`. -/
theorem mlFw_foldl (content : String) :
    ∀ (table : List (String × List String)) (acc : MLInfo),
      table.foldl (mlFwStep content) acc =
        ⟨acc.is_ml_code || table.any (mlMatches content),
         acc.frameworks ++ (table.filter (mlMatches content)).map Prod.fst,
         acc.operations⟩ := by
  intro table
  induction table with
  | nil => intro acc; simp
  | cons e t ih =>
    intro acc
    by_cases h : mlMatches content e
    · simp [List.foldl_cons, mlFwStep, h, ih, List.filter_cons]
    · simp [List.foldl_cons, mlFwStep, h, ih, List.filter_cons]

/-- Unfolding of the operation-table fold of `detect_ml_code`. -/
theorem mlOp_foldl (content : String) :
    ∀ (table : List (String × List String)) (acc : MLInfo),
      table.foldl (mlOpStep content) acc =
        ⟨acc.is_ml_code || table.any (mlMatches content),
         acc.frameworks,
         acc.operations ++ (table.filter (mlMatches content)).map Prod.fst⟩ := by
  intro table
  induction table with
  | nil => intro acc; simp
  | cons e t ih =>
    intro acc
    by_cases h : mlMatches content e
    · simp [List.foldl_cons, mlOpStep, h, ih, List.filter_cons]
    · simp [List.foldl_cons, mlOpStep, h, ih, List.filter_cons]

/-- `any` over a table is equivalent to its filtered sublist being
non-empty. -/
theorem mlAny_iff_filter_ne_nil (content : String) :
    ∀ table : List (String × List String),
      table.any (mlMatches content) = true ↔ table.filter (mlMatches content) ≠ [] := by
  intro table
  induction table with
  | nil => simp
  | cons e t ih => by_cases h : mlMatches content e <;> simp [h, List.filter_cons, ih]

/-! ## Claim theorems -/

/-- C1 (counterexample): with detected label `"C"` (content `"#include\n}"`,
no filename) and a failing structural parse, the regex fallback reports
`function_definitions = count('{') - count('}') = -1`, a negative value —
refuting non-negativity of all `StructureMetrics` fields. -/
theorem c1_counterexample :
    detect_file_type "" "#include\n\x7d" = "C" ∧
    (analyze_code_structure none none "#include\n\x7d" "C").function_definitions = -1 := by
  constructor
  · decide
  · decide

/-- C1 (amended): every field of the structure analysis is non-negative on
every path, except that on the C/C++ regex-fallback path (label `"C"`/`"C++"`
with a failed parse) `function_definitions` and `variable_declarations` are
signed differences and can be negative; the remaining seven fields are
non-negative even there. -/
theorem c1_structure_nonneg (pyParsed : Option PySummary) (cParsed : Option CSummary)
    (code label : String) :
    (0 ≤ (analyze_code_structure pyParsed cParsed code label).total_lines ∧
     0 ≤ (analyze_code_structure pyParsed cParsed code label).empty_lines ∧
     0 ≤ (analyze_code_structure pyParsed cParsed code label).comment_lines ∧
     0 ≤ (analyze_code_structure pyParsed cParsed code label).import_statements ∧
     0 ≤ (analyze_code_structure pyParsed cParsed code label).class_definitions ∧
     0 ≤ (analyze_code_structure pyParsed cParsed code label).loops ∧
     0 ≤ (analyze_code_structure pyParsed cParsed code label).conditionals) ∧
    (¬ ((label = "C" ∨ label = "C++") ∧ cParsed = none) →
      0 ≤ (analyze_code_structure pyParsed cParsed code label).function_definitions ∧
      0 ≤ (analyze_code_structure pyParsed cParsed code label).variable_declarations) := by
  unfold analyze_code_structure analyze_python_structure analyze_c_structure
  split_ifs with h1 h2
  · cases pyParsed <;>
      exact ⟨⟨Int.natCast_nonneg _, Int.natCast_nonneg _, Int.natCast_nonneg _,
              Int.natCast_nonneg _, Int.natCast_nonneg _, Int.natCast_nonneg _,
              Int.natCast_nonneg _⟩,
             fun _ => ⟨Int.natCast_nonneg _, Int.natCast_nonneg _⟩⟩
  · cases cParsed with
    | none =>
      exact ⟨⟨Int.natCast_nonneg _, Int.natCast_nonneg _, Int.natCast_nonneg _,
              Int.natCast_nonneg _, Int.natCast_nonneg _, Int.natCast_nonneg _,
              Int.natCast_nonneg _⟩,
             fun hc => absurd ⟨h2, rfl⟩ hc⟩
    | some t =>
      exact ⟨⟨Int.natCast_nonneg _, Int.natCast_nonneg _, Int.natCast_nonneg _,
              Int.natCast_nonneg _, Int.natCast_nonneg _, Int.natCast_nonneg _,
              Int.natCast_nonneg _⟩,
             fun _ => ⟨Int.natCast_nonneg _, Int.natCast_nonneg _⟩⟩
  · exact ⟨⟨Int.natCast_nonneg _, Int.natCast_nonneg _, Int.natCast_nonneg _,
            Int.natCast_nonneg _, Int.natCast_nonneg _, Int.natCast_nonneg _,
            Int.natCast_nonneg _⟩,
           fun _ => ⟨Int.natCast_nonneg _, Int.natCast_nonneg _⟩⟩

/-- C1 (witness): the amended non-negativity applied at a concrete
non-C-fallback input. -/
theorem c1_witness :
    0 ≤ (analyze_code_structure none none "" "Unknown").total_lines ∧
    0 ≤ (analyze_code_structure none none "" "Unknown").function_definitions ∧
    0 ≤ (analyze_code_structure none none "" "Unknown").variable_declarations := by
  have h := c1_structure_nonneg none none "" "Unknown"
  exact ⟨h.1.1, (h.2 (by decide)).1, (h.2 (by decide)).2⟩

/-- C2: for every content, label and metric record, removing the inserted
annotation lines from the rewriter's output yields exactly the original
lines of the input, in order (so every original line is kept verbatim, once,
interleaved only with insertions), and the published string is the join of
the tagged line sequence. -/
theorem c2_document_preserves_lines (code language : String) (st : StructureMetrics) :
    (docTagged code language st).filterMap untag = pySplitOnNl code ∧
    List.Sublist (pySplitOnNl code) ((docTagged code language st).map Prod.snd) ∧
    generate_documented_code code language st =
      joinSep "\n" ((docTagged code language st).map Prod.snd) := by
  refine ⟨docTagged_filterMap code language st, ?_, rfl⟩
  rw [← docTagged_filterMap code language st]
  exact filterMap_untag_sublist _

/-- C3 (counterexample): for filename `".env"` and content
`"API_KEY=123\n# comment\n"` the detected language is
`"Environment Variables"`, but the analysis *does not* count the
`KEY=VALUE` line: `variable_declarations ≠ 1`, because
`analyze_code_structure` never delegates to `analyze_config_file`. -/
theorem c3_counterexample :
    (analyze_code none none ".env" "API_KEY=123\n# comment\n").language =
      "Environment Variables" ∧
    (analyze_code none none ".env" "API_KEY=123\n# comment\n").structure_.variable_declarations
      ≠ 1 := by
  constructor
  · decide
  · decide

/-- C3 (amended): the `.env` scenario detects `"Environment Variables"` and
has `comment_lines = 1`, but the structure analyzer routes the label through
the generic counting path (not `analyze_config_file`), giving
`variable_declarations = 0`; `analyze_config_file` itself, applied directly,
would return the claimed per-kind counts (`variable_declarations = 1`,
`comment_lines = 1`). -/
theorem c3_env_scenario :
    (analyze_code none none ".env" "API_KEY=123\n# comment\n").language =
      "Environment Variables" ∧
    (analyze_code none none ".env" "API_KEY=123\n# comment\n").structure_.comment_lines = 1 ∧
    (analyze_code none none ".env" "API_KEY=123\n# comment\n").structure_.variable_declarations = 0 ∧
    (analyze_code none none ".env" "API_KEY=123\n# comment\n").structure_ ≠
      analyze_config_file "API_KEY=123\n# comment\n" "Environment Variables" ∧
    (analyze_config_file "API_KEY=123\n# comment\n" "Environment Variables").variable_declarations = 1 ∧
    (analyze_config_file "API_KEY=123\n# comment\n" "Environment Variables").comment_lines = 1 := by
  refine ⟨by decide, by decide, by decide, by decide, by decide, by decide⟩

/-- C4 (counterexample): on a Python-labelled content that fails to parse
(`"import os ("` — unbalanced parenthesis), the fallback records
`import_statements = 0`, whereas the generic keyword count for the same
content is `1`; the fallback does *not* reuse the generic counts. -/
theorem c4_counterexample :
    (analyze_code_structure none none "import os (" "Python").import_statements = 0 ∧
    (analyze_code_structure none none "import os (" "Unknown").import_statements = 1 := by
  constructor
  · decide
  · decide

/-- C4 (amended): when the Python parse fails, `analyze_code_structure`
falls back silently to a complete record that keeps the three text-derived
counters (`total_lines`, `empty_lines` as the `'\n\n'` count,
`comment_lines` as the `'#'` count) and zeroes the six syntactic counters —
not the generic keyword counts. -/
theorem c4_python_fallback (cParsed : Option CSummary) (content : String) :
    analyze_code_structure none cParsed content "Python" =
      analyze_python_structure none content ∧
    analyze_python_structure none content =
      { total_lines := ((pySplitlines content).length : Int)
        empty_lines := (pyCount content "\n\n" : Int)
        comment_lines := (pyCount content "#" : Int)
        import_statements := 0
        function_definitions := 0
        class_definitions := 0
        variable_declarations := 0
        loops := 0
        conditionals := 0 } := by
  constructor
  · unfold analyze_code_structure
    rw [if_pos rfl]
  · rfl

/-- C5 (counterexample): for empty content (and no filename) the analysis
reports `total_lines = 0`, not `1`: `"".splitlines()` is empty. -/
theorem c5_counterexample :
    (analyze_code none none "" "").structure_.total_lines ≠ 1 := by decide

/-- C5 (amended): the empty-input scenario yields label `"Unknown"`, the
all-zero metrics record (in particular `total_lines = 0`),
`cyclomatic_complexity = 1` and `maintainability_index = 100`. -/
theorem c5_empty_input :
    (analyze_code none none "" "").language = "Unknown" ∧
    (analyze_code none none "" "").structure_ = ⟨0, 0, 0, 0, 0, 0, 0, 0, 0⟩ ∧
    calculate_cyclomatic_complexity "" = 1 ∧
    calculate_maintainability_index (analyze_code none none "" "").structure_ = 100 := by
  refine ⟨by decide, by decide, by decide, ?_⟩
  have h : (analyze_code none none "" "").structure_ = ⟨0, 0, 0, 0, 0, 0, 0, 0, 0⟩ := by decide
  rw [h]
  simp [calculate_maintainability_index]

/-- C6: for every input and every outcome of the external parsers (including
both failure branches), the composed pipeline produces a complete
`AnalysisResult`: the detected label, a structure record whose `total_lines`
always equals the line count of the content, an explanation that always
starts with `"This is "`, and a documented-code string that is the join of
the tagged rewriter output in which the original lines survive as a
sublist; the cyclomatic estimate is always at least the base `1`. -/
theorem c6_analyze_code_total (pyParsed : Option PySummary) (cParsed : Option CSummary)
    (filename code : String) :
    (analyze_code pyParsed cParsed filename code).language = detect_file_type filename code ∧
    (analyze_code pyParsed cParsed filename code).structure_.total_lines =
      ((pySplitlines code).length : Int) ∧
    (∃ tail, (analyze_code pyParsed cParsed filename code).explanation = "This is " ++ tail) ∧
    (analyze_code pyParsed cParsed filename code).documented_code =
      joinSep "\n" ((docTagged code (detect_file_type filename code)
        (analyze_code pyParsed cParsed filename code).structure_).map Prod.snd) ∧
    List.Sublist (pySplitOnNl code)
      ((docTagged code (detect_file_type filename code)
        (analyze_code pyParsed cParsed filename code).structure_).map Prod.snd) ∧
    1 ≤ calculate_cyclomatic_complexity code := by
  refine ⟨rfl, structure_total_lines pyParsed cParsed code (detect_file_type filename code),
    ⟨_, rfl⟩, rfl, ?_, Nat.le_add_left 1 _⟩
  rw [← docTagged_filterMap code (detect_file_type filename code)
    (analyze_code pyParsed cParsed filename code).structure_]
  exact filterMap_untag_sublist _

/-- C7: a `.json` filename with non-JSON content is not labelled `"JSON"`:
detection falls through the failed parse to the content heuristics and ends
at the `"Unknown"` fallback. -/
theorem c7_invalid_json_detection :
    detect_file_type "config.json" "not valid json" = "Unknown" ∧
    detect_file_type "config.json" "not valid json" ≠ "JSON" := by
  constructor
  · decide
  · decide

/-- C8: the Python-function scenario: content
`"def get_user_name(id):\n    return name"` with no filename detects
`"Python"`, counts one function definition (parse summary modelled from the
spec), and the documented output contains the line
`"Description: Retrieves or calculates user name"` (prefix `get`, remainder
`user name`) and the `"@param id - Parameter description"` line. -/
theorem c8_python_function_scenario :
    detect_file_type "" "def get_user_name(id):\n    return name" = "Python" ∧
    (analyze_code (some getUserNameSummary) none ""
      "def get_user_name(id):\n    return name").structure_.function_definitions = 1 ∧
    "Description: Retrieves or calculates user name" ∈
      pySplitOnNl ((analyze_code (some getUserNameSummary) none ""
        "def get_user_name(id):\n    return name").documented_code) ∧
    "@param id - Parameter description" ∈
      pySplitOnNl ((analyze_code (some getUserNameSummary) none ""
        "def get_user_name(id):\n    return name").documented_code) := by
  refine ⟨by decide, by decide, by decide, by decide⟩

/-- C9: for every metrics record with non-negative fields the
maintainability index lies in `[0, 100]`; `total_lines = 0` forces `100`;
and the degenerate cases (`comment_lines = 0` or a zero
loops+conditionals+functions sum, where `math.log` would fail) are caught
and yield `0`. -/
theorem c9_maintainability_bounds (st : StructureMetrics)
    (h0 : 0 ≤ st.total_lines) (h1 : 0 ≤ st.comment_lines) (h2 : 0 ≤ st.loops)
    (h3 : 0 ≤ st.conditionals) (h4 : 0 ≤ st.function_definitions) :
    (0 ≤ calculate_maintainability_index st ∧ calculate_maintainability_index st ≤ 100) ∧
    (st.total_lines = 0 → calculate_maintainability_index st = 100) ∧
    (st.total_lines ≠ 0 →
      (st.comment_lines = 0 ∨ st.loops + st.conditionals + st.function_definitions = 0) →
      calculate_maintainability_index st = 0) := by
  refine ⟨?_, ?_, ?_⟩
  · by_cases ht : st.total_lines = 0
    · rw [calculate_maintainability_index, if_pos ht]
      norm_num
    · rw [calculate_maintainability_index, if_neg ht]
      by_cases hc : miCplPerLine st ≤ 0 ∨ (st.total_lines : ℝ) ≤ 0 ∨ miCommentRat st ≤ 0
      · rw [if_pos hc]
        norm_num
      · rw [if_neg hc]
        exact ⟨le_max_left _ _, max_le (by norm_num) (min_le_left _ _)⟩
  · intro ht
    rw [calculate_maintainability_index, if_pos ht]
  · intro ht hdeg
    have hc : miCplPerLine st ≤ 0 ∨ (st.total_lines : ℝ) ≤ 0 ∨ miCommentRat st ≤ 0 := by
      rcases hdeg with h | h
      · refine Or.inr (Or.inr (le_of_eq ?_))
        rw [miCommentRat, h]
        simp
      · refine Or.inl (le_of_eq ?_)
        rw [miCplPerLine, h]
        simp
    rw [calculate_maintainability_index, if_neg ht, if_pos hc]

/-- C9 (witness): the bounds applied at the all-zero record, whose index is
`100` (empty input case). -/
theorem c9_witness :
    0 ≤ calculate_maintainability_index ⟨0, 0, 0, 0, 0, 0, 0, 0, 0⟩ ∧
    calculate_maintainability_index ⟨0, 0, 0, 0, 0, 0, 0, 0, 0⟩ = 100 := by
  have h := c9_maintainability_bounds ⟨0, 0, 0, 0, 0, 0, 0, 0, 0⟩
    (by decide) (by decide) (by decide) (by decide) (by decide)
  exact ⟨h.1.1, h.2.1 rfl⟩

/-- C10: for every content, `is_ml_code` holds iff some framework or
operation table entry matched (so `false` forces both lists empty); the two
lists are exactly the matched entries of the fixed tables in table order,
hence duplicate-free sublists of the fixed name orders. -/
theorem c10_ml_detection (content language : String) :
    ((detect_ml_code content language).is_ml_code = true ↔
      ((detect_ml_code content language).frameworks ≠ [] ∨
       (detect_ml_code content language).operations ≠ [])) ∧
    (detect_ml_code content language).frameworks =
      (mlFrameworks.filter (mlMatches content)).map Prod.fst ∧
    (detect_ml_code content language).operations =
      (mlOperations.filter (mlMatches content)).map Prod.fst ∧
    (detect_ml_code content language).frameworks.Nodup ∧
    (detect_ml_code content language).operations.Nodup ∧
    List.Sublist (detect_ml_code content language).frameworks (mlFrameworks.map Prod.fst) ∧
    List.Sublist (detect_ml_code content language).operations (mlOperations.map Prod.fst) := by
  have hr : detect_ml_code content language =
      ⟨mlFrameworks.any (mlMatches content) || mlOperations.any (mlMatches content),
       (mlFrameworks.filter (mlMatches content)).map Prod.fst,
       (mlOperations.filter (mlMatches content)).map Prod.fst⟩ := by
    unfold detect_ml_code
    rw [mlFw_foldl, mlOp_foldl]
    simp
  have hfw : List.Sublist ((mlFrameworks.filter (mlMatches content)).map Prod.fst)
      (mlFrameworks.map Prod.fst) :=
    (List.filter_sublist mlFrameworks).map Prod.fst
  have hop : List.Sublist ((mlOperations.filter (mlMatches content)).map Prod.fst)
      (mlOperations.map Prod.fst) :=
    (List.filter_sublist mlOperations).map Prod.fst
  refine ⟨?_, by rw [hr], by rw [hr], ?_, ?_, by rw [hr]; exact hfw, by rw [hr]; exact hop⟩
  · rw [hr]
    simp only [Bool.or_eq_true, ne_eq, List.map_eq_nil_iff]
    rw [mlAny_iff_filter_ne_nil, mlAny_iff_filter_ne_nil]
  · rw [hr]
    exact hfw.nodup (by decide)
  · rw [hr]
    exact hop.nodup (by decide)
